import Mathlib

/-!
Shallow embedding of the mail-collector notification-to-delivery pipeline.

The definitions below are translated from the repository's JavaScript
sources:
* the webhook routes / forward-queue worker (`src/unnamed/part_005`),
* `src/src/services/webhook.service.js`,
* `src/src/services/microsoftAuth.service.js`,
* `src/src/services/forwarder.service.js`,
* `src/src/services/sync.service.js`,
* the Prisma migration (`mail_message_log` unique compound key).

Conventions: timestamps are integers (milliseconds since epoch), the
relational tables are lists of rows, Prisma `upsert`/`update`/`delete`
become explicit list transformations, network calls become `Except`
parameters injected by the caller, and encryption is passed in as a
function parameter (dependency injection of `src/src/utils/encryption.js`).
-/

/-- Does the character list `h` start with `n`? (helper for the substring
test below; operates on `List Char` so that the kernel can evaluate it). -/
def charsStartWith : List Char → List Char → Bool
  | _, [] => true
  | [], _ :: _ => false
  | a :: as, b :: bs => a == b && charsStartWith as bs

/-- Does `n` occur as a contiguous run inside `h`? -/
def charsHasSub (h n : List Char) : Bool :=
  match h with
  | [] => n.isEmpty
  | _ :: t => charsStartWith h n || charsHasSub t n

/-- JavaScript `haystack.includes(needle)` for strings: substring test. -/
def strContains (haystack needle : String) : Bool :=
  charsHasSub haystack.data needle.data

/-- Split a character list on a separator character, like JavaScript
`String.prototype.split` with a single-character separator. -/
def splitOnCharAux (c : Char) : List Char → List Char → List (List Char)
  | [], acc => [acc.reverse]
  | x :: xs, acc =>
    if x == c then acc.reverse :: splitOnCharAux c xs []
    else splitOnCharAux c xs (x :: acc)

/-- JavaScript `s.split(c)` for a one-character separator. -/
def splitOnChar (c : Char) (s : String) : List String :=
  (splitOnCharAux c s.data []).map String.mk

/-- ASCII lower-casing, modelling JavaScript `toLowerCase` on the ASCII
addresses and subjects this deployment handles. -/
def lowerStr (s : String) : String :=
  String.mk (s.data.map Char.toLower)

/-- `forwardStatus` enum of the `mail_message_log` table
(`prisma/migrations/.../migration.sql`). -/
inductive ForwardStatus
  | PENDING
  | FORWARDED
  | FAILED
  | SKIPPED
deriving DecidableEq

/-- Account lifecycle `status` values used throughout the services. -/
inductive AccountStatus
  | PENDING
  | CONNECTED
  | NEEDS_REAUTH
  | ERROR
  | DISABLED
deriving DecidableEq

/-- The parsed Steam-filter environment configuration of
`src/unnamed/part_005` (`STEAM_ALLOWED_SENDERS`, `STEAM_ALLOWED_DOMAINS`,
`STEAM_SUBJECT_KEYWORDS`, each already lower-cased by `parseCsvEnv(...).map
toLowerCase` at module load). -/
structure FilterConfig where
  allowedSenders : List String
  allowedDomains : List String
  subjectKeywords : List String
deriving DecidableEq

/-- The fields of a Graph message preview the worker reads
(`msgPreview.from.emailAddress.address`, `msgPreview.subject`,
`msgPreview.receivedDateTime`).  Absent fields are the empty string /
`none`, matching the `|| ""` defaulting in the source. -/
structure MsgPreview where
  fromAddress : String
  subject : String
  receivedDateTime : Option Int
deriving DecidableEq

/-- `isSteamMessage` from `src/unnamed/part_005` lines 55-71. -/
def isSteamMessage (cfg : FilterConfig) (m : MsgPreview) : Bool :=
  let fromAddress := lowerStr m.fromAddress
  let subject := lowerStr m.subject
  if cfg.allowedSenders.contains fromAddress then true
  else
    let domain := (splitOnChar '@' fromAddress).getD 1 ""
    if domain != "" && cfg.allowedDomains.contains domain then true
    else if !cfg.subjectKeywords.isEmpty then
      cfg.subjectKeywords.any (fun k => strContains subject k)
    else false

/-- The shape of an axios error the services inspect
(`error?.response?.status`, `error?.response?.data?.error?.code`,
`error?.response?.data?.error?.message`, `error.message`).  `none` models
an absent field (`undefined`). -/
structure ErrorResponse where
  status : Option Nat
  errorCode : Option String
  errorMessage : String
deriving DecidableEq

/-- `AUTH_ERROR_CODES` from `src/unnamed/part_005` lines 30-36. -/
def authErrorCodes : List String :=
  ["ErrorAccountSuspend", "ErrorExceededMessageLimit",
   "InvalidAuthenticationToken", "CompactToken.Validation",
   "InvalidSubscription"]

/-- `isAuthOrSuspendError` from `src/unnamed/part_005` lines 44-53.
`code` defaults to the empty string when the field is absent (`|| ""`). -/
def isAuthOrSuspendError (e : ErrorResponse) : Bool :=
  let code := e.errorCode.getD ""
  e.status == some 401 || e.status == some 403 || e.status == some 429 ||
    authErrorCodes.any (fun c => strContains code c)

/-- The subset of `buildErrorDetails` (`src/unnamed/part_005` lines 76-92)
that the pipeline's control flow depends on.  The source also records
timestamp, api, endpoint, statusText, request ids and the stack, which are
free-text diagnostics with no further reads in the program. -/
structure ErrorDetails where
  accountId : String
  accountEmail : String
  messageId : String
  status : Option Nat
  errorCode : Option String
  errorMessage : String
deriving DecidableEq

/-- `buildErrorDetails` from `src/unnamed/part_005`, restricted to the
modelled fields. -/
def buildErrorDetails (e : ErrorResponse) (accountId accountEmail messageId : String) :
    ErrorDetails :=
  { accountId := accountId, accountEmail := accountEmail, messageId := messageId,
    status := e.status, errorCode := e.errorCode, errorMessage := e.errorMessage }

/-- JSON rendering of an optional number (`null` when absent). -/
def jsonOfOptNat : Option Nat → String
  | some n => toString n
  | none => "null"

/-- JSON rendering of an optional string (`null` when absent). -/
def jsonOfOptStr : Option String → String
  | some s => "\"" ++ s ++ "\""
  | none => "null"

/-- `JSON.stringify(errorDetails)` restricted to the modelled fields, in the
source's insertion order.  In particular it contains the fragment
`"status":403` exactly when the recorded status is 403, which is what the
retry query's `contains` filter keys on. -/
def errorDetailsJson (d : ErrorDetails) : String :=
  "\x7b\"accountId\":\"" ++ d.accountId ++ "\",\"accountEmail\":\"" ++
    d.accountEmail ++ "\",\"messageId\":\"" ++ d.messageId ++
    "\",\"status\":" ++ jsonOfOptNat d.status ++ ",\"errorCode\":" ++
    jsonOfOptStr d.errorCode ++ ",\"errorMessage\":\"" ++ d.errorMessage ++
    "\"\x7d"

/-- A `mail_accounts` row, restricted to the columns the pipeline reads or
writes (`id`, `email`, `status`, `isEnabled`, the two counters,
`lastSyncAt`, `lastMessageAt`, `lastError`, `errorCount`). -/
structure MailAccount where
  id : String
  email : String
  status : AccountStatus
  isEnabled : Bool
  forwardedCount : Int
  failedForwardCount : Int
  lastSyncAt : Option Int
  lastMessageAt : Option Int
  lastError : Option String
  errorCount : Nat
deriving DecidableEq

/-- A `mail_message_log` row (the DeliveryRecord), restricted to the columns
the pipeline reads or writes.  The table carries the unique compound index
`mail_message_log_accountId_graphMessageId_key(accountId, graphMessageId)`. -/
structure MailMessageLog where
  id : String
  accountId : String
  graphMessageId : String
  forwardStatus : ForwardStatus
  attempts : Nat
  lastAttemptAt : Option Int
  error : Option String
  forwardedTo : Option String
deriving DecidableEq

/-- A `webhook_subscriptions` row, restricted to the columns the pipeline
reads or writes (`resource`, `changeType` and `notificationUrl` are stored
verbatim from the provider response and never read back). -/
structure WebhookSubscription where
  accountId : String
  subscriptionId : String
  clientState : String
  expiresAt : Int
deriving DecidableEq

/-- A `mail_tokens` row (the Credential).  `accessToken` and `refreshToken`
hold ciphertext; decryption is injected as a function parameter. -/
structure MailToken where
  accountId : String
  accessToken : String
  refreshToken : String
  tokenType : String
  scope : Option String
  expiresAt : Int
deriving DecidableEq

/-- A job on the Bull `webhook-forward` queue, with the custom `jobId` the
source passes to `forwardQueue.add` to prevent duplicates. -/
structure BullJob where
  jobId : String
  accountId : String
  accountEmail : String
  messageId : String
deriving DecidableEq

/-- Does this row carry the compound key `(accountId, graphMessageId)`? -/
def logKeyMatches (accountId graphMessageId : String) (r : MailMessageLog) : Bool :=
  r.accountId == accountId && r.graphMessageId == graphMessageId

/-- Prisma `mailMessageLog.upsert({where: {accountId_graphMessageId}, create,
update})`: atomically update the row holding the unique compound key if one
exists, else insert the `create` row. -/
def upsertMessageLog (logs : List MailMessageLog) (accountId graphMessageId : String)
    (create : MailMessageLog) (update : MailMessageLog → MailMessageLog) :
    List MailMessageLog :=
  if logs.any (logKeyMatches accountId graphMessageId) then
    logs.map (fun r => if logKeyMatches accountId graphMessageId r then update r else r)
  else logs ++ [create]

/-- Prisma `mailAccount.update({where: {id}, data})` as a list map. -/
def updateAccount (accounts : List MailAccount) (id : String)
    (f : MailAccount → MailAccount) : List MailAccount :=
  accounts.map (fun a => if a.id == id then f a else a)

/-- Bull's documented custom-`jobId` semantics, relied on by the source's
`// Prevent duplicate jobs` comment: `queue.add(data, {jobId})` is ignored
when a job with that id is already in the queue (waiting, delayed or
active). -/
def bullAdd (queue : List BullJob) (job : BullJob) : List BullJob :=
  if queue.any (fun j => j.jobId == job.jobId) then queue else queue ++ [job]

/-- `validateNotification` from `src/src/services/webhook.service.js` lines
315-331: look up by the unique `subscriptionId`; reject unless the stored
`clientState` strictly equals the inbound one (`!==`, with a missing inbound
value modelled as `none`). -/
def validateNotification (subs : List WebhookSubscription)
    (clientState : Option String) (subscriptionId : String) :
    Option WebhookSubscription :=
  match subs.find? (fun s => s.subscriptionId == subscriptionId) with
  | none => none
  | some s => if clientState == some s.clientState then some s else none

/-- Characters after the first occurrence of `sep`, or `none` when `sep`
does not occur. -/
def afterFirstSub (sep : List Char) : List Char → Option (List Char)
  | [] => none
  | x :: xs =>
    if charsStartWith (x :: xs) sep then some ((x :: xs).drop sep.length)
    else afterFirstSub sep xs

/-- Characters before the first occurrence of `sep` (the whole list when
`sep` does not occur). -/
def upToFirstSub (sep : List Char) : List Char → List Char
  | [] => []
  | x :: xs =>
    if charsStartWith (x :: xs) sep then [] else x :: upToFirstSub sep xs

/-- JavaScript `s.split(sep)[1]`: the segment between the first and second
occurrences of `sep`, `undefined` (`none`) when `sep` does not occur. -/
def splitIndex1 (sep s : String) : Option String :=
  (afterFirstSub sep.data s.data).map (fun rest => String.mk (upToFirstSub sep.data rest))

/-- One entry of an inbound change-notification batch, as destructured by
`enqueueNotification` in `src/unnamed/part_005`: `{subscriptionId,
clientState, resource, resourceData}` (only `resourceData.id` is read). -/
structure GraphNotification where
  subscriptionId : String
  clientState : Option String
  resource : Option String
  resourceDataId : Option String
deriving DecidableEq

/-- `resourceData?.id || resource?.split("/messages/")[1]` — JavaScript `||`
falls through on `undefined` and on the empty string. -/
def extractMessageId (n : GraphNotification) : Option String :=
  let fallback := n.resource.bind (fun r => splitIndex1 "/messages/" r)
  match n.resourceDataId with
  | some s => if s.isEmpty then fallback else some s
  | none => fallback

/-- JavaScript truthiness for an optional string: both `undefined` and `""`
fail the `if (!messageId)` guard. -/
def truthyStr : Option String → Option String
  | some s => if s.isEmpty then none else some s
  | none => none

/-- The job identity string `` `${accountId}:${messageId}` `` passed as the
Bull `jobId`. -/
def jobIdOf (accountId messageId : String) : String :=
  accountId ++ ":" ++ messageId

/-- The validation/lookup portion of `enqueueNotification`
(`src/unnamed/part_005` lines 283-318): validate the notification, load the
account, drop the entry unless the account is CONNECTED and enabled, and
extract a non-empty message id.  Returns `(accountId, accountEmail,
messageId)` when the entry reaches the final `forwardQueue.add`. -/
def resolveNotification (subs : List WebhookSubscription)
    (accounts : List MailAccount) (n : GraphNotification) :
    Option (String × String × String) :=
  match validateNotification subs n.clientState n.subscriptionId with
  | none => none
  | some sub =>
    match accounts.find? (fun a => a.id == sub.accountId) with
    | none => none
    | some account =>
      if account.status != AccountStatus.CONNECTED || !account.isEnabled then none
      else
        match truthyStr (extractMessageId n) with
        | none => none
        | some mid => some (sub.accountId, account.email, mid)

/-- `enqueueNotification` from `src/unnamed/part_005` lines 283-329: the
queue after handling one inbound notification entry. -/
def enqueueNotification (subs : List WebhookSubscription)
    (accounts : List MailAccount) (queue : List BullJob)
    (n : GraphNotification) : List BullJob :=
  match resolveNotification subs accounts n with
  | none => queue
  | some (accountId, email, mid) =>
    bullAdd queue
      { jobId := jobIdOf accountId mid, accountId := accountId,
        accountEmail := email, messageId := mid }

/-- The database state the forward-queue worker touches. -/
structure WorkerState where
  accounts : List MailAccount
  logs : List MailMessageLog
deriving DecidableEq

/-- The value the queue processor resolves or rejects with:
`{status: "NOT_FOUND"}`, `{status: "SKIPPED"}`, `{status: "FORWARDED"}`, or
the rethrown error that marks the Bull job failed. -/
inductive JobResult
  | NOT_FOUND
  | SKIPPED
  | FORWARDED
  | FAILED (e : ErrorResponse)
deriving DecidableEq

/-- Result of one run of the queue processor: the database state afterwards
plus how many re-auth notifications (`sendReauthNotification`) and how many
developer-only error notifications (`sendErrorNotificationToDev`) the run
triggered. -/
structure ProcessOutcome where
  state : WorkerState
  result : JobResult
  reauthNotices : Nat
  devErrorNotices : Nat
deriving DecidableEq

/-- The `catch` block of the queue processor (`src/unnamed/part_005` lines
162-230): build the error details, upsert the FAILED `mail_message_log` row
keyed by `accountId_graphMessageId`, bump `failedForwardCount`, and either
flip the account to ERROR and send the re-auth notification (auth /
suspension / quota errors) or send the developer-only notification.  The
model's created rows use `jobIdOf` as a deterministic stand-in for the
database-generated row id (unique per compound key, which is all the code
relies on). -/
def failForwardJob (job : BullJob) (e : ErrorResponse) (now : Int)
    (st : WorkerState) : ProcessOutcome :=
  let errJson := errorDetailsJson
    (buildErrorDetails e job.accountId job.accountEmail job.messageId)
  let logs :=
    upsertMessageLog st.logs job.accountId job.messageId
      { id := jobIdOf job.accountId job.messageId, accountId := job.accountId,
        graphMessageId := job.messageId, forwardStatus := ForwardStatus.FAILED,
        attempts := 1, lastAttemptAt := some now, error := some errJson,
        forwardedTo := none }
      (fun r =>
        { r with forwardStatus := ForwardStatus.FAILED, error := some errJson,
                 attempts := r.attempts + 1, lastAttemptAt := some now })
  let accounts :=
    updateAccount st.accounts job.accountId
      (fun a => { a with failedForwardCount := a.failedForwardCount + 1 })
  if isAuthOrSuspendError e then
    { state :=
        { accounts :=
            updateAccount accounts job.accountId
              (fun a => { a with status := AccountStatus.ERROR }),
          logs := logs },
      result := JobResult.FAILED e, reauthNotices := 1, devErrorNotices := 0 }
  else
    { state := { accounts := accounts, logs := logs },
      result := JobResult.FAILED e, reauthNotices := 0, devErrorNotices := 1 }

/-- The `forwardQueue.process` handler (`src/unnamed/part_005` lines
109-231).  External calls are injected: `preview` is the
`graphService.getMessagePreview` outcome (an error lands in the `catch`
block; `none` means the message no longer exists), `forwardResult` is the
`forwarderService.forwardGraphMessage` outcome. -/
def processForwardJob (steamOnly : Bool) (cfg : FilterConfig) (job : BullJob)
    (preview : Except ErrorResponse (Option MsgPreview))
    (forwardResult : Except ErrorResponse Unit) (now : Int)
    (st : WorkerState) : ProcessOutcome :=
  match preview with
  | Except.error e => failForwardJob job e now st
  | Except.ok none =>
    { state := st, result := JobResult.NOT_FOUND,
      reauthNotices := 0, devErrorNotices := 0 }
  | Except.ok (some p) =>
    if steamOnly && !isSteamMessage cfg p then
      { state := st, result := JobResult.SKIPPED,
        reauthNotices := 0, devErrorNotices := 0 }
    else
      match forwardResult with
      | Except.error e => failForwardJob job e now st
      | Except.ok _ =>
        { state :=
            { st with
              accounts :=
                updateAccount st.accounts job.accountId
                  (fun a =>
                    { a with forwardedCount := a.forwardedCount + 1,
                             lastSyncAt := some now,
                             lastMessageAt := some (p.receivedDateTime.getD now) }) },
          result := JobResult.FORWARDED, reauthNotices := 0, devErrorNotices := 0 }

/-- The provider's token endpoint response body (`response.data` of the
refresh-token exchange). -/
structure TokenData where
  access_token : String
  refresh_token : Option String
  expires_in : Int
  token_type : Option String
  scope : Option String
deriving DecidableEq

/-- `refreshAccessToken` (`src/src/services/microsoftAuth.service.js` lines
78-100): pass the provider response through, wrapping a failure as
`Token refresh failed: <description>`. -/
def refreshAccessToken (exchange : Except String TokenData) :
    Except String TokenData :=
  match exchange with
  | Except.ok d => Except.ok d
  | Except.error desc => Except.error ("Token refresh failed: " ++ desc)

/-- `storeTokens` (`src/src/services/microsoftAuth.service.js` lines
113-136): upsert the `mail_tokens` row; on update the refresh token is
re-encrypted only when the provider sent a new one (`undefined` leaves the
column unchanged). -/
def storeTokens (encrypt : String → String) (tokens : List MailToken)
    (accountId : String) (d : TokenData) (now : Int) : List MailToken :=
  let expiresAt := now + d.expires_in * 1000
  if tokens.any (fun t => t.accountId == accountId) then
    tokens.map (fun t =>
      if t.accountId == accountId then
        { t with accessToken := encrypt d.access_token,
                 refreshToken :=
                   match d.refresh_token with
                   | some rt => encrypt rt
                   | none => t.refreshToken,
                 tokenType := d.token_type.getD "Bearer",
                 scope := d.scope, expiresAt := expiresAt }
      else t)
  else
    tokens ++
      [{ accountId := accountId, accessToken := encrypt d.access_token,
         refreshToken := encrypt (d.refresh_token.getD ""),
         tokenType := d.token_type.getD "Bearer", scope := d.scope,
         expiresAt := expiresAt }]

/-- JavaScript `!s || s.trim() === ""`: the string is empty or all
whitespace. -/
def jsIsBlank (s : String) : Bool :=
  s.data.all Char.isWhitespace

/-- The 5-minute safety buffer (`bufferTime = 5 * 60 * 1000`). -/
def bufferTime : Int := 5 * 60 * 1000

deriving instance DecidableEq for Except

/-- Result of `getValidAccessToken`: the returned token or thrown error,
whether the refresh-token exchange was invoked, and the `mail_tokens` /
`mail_accounts` tables afterwards. -/
structure TokenOutcome where
  result : Except String String
  refreshCalled : Bool
  tokens : List MailToken
  accounts : List MailAccount
deriving DecidableEq

/-- `getValidAccessToken` (`src/src/services/microsoftAuth.service.js` lines
138-173).  `decrypt`/`encrypt` inject `src/src/utils/encryption.js`;
`exchangeResult` injects the outcome of the provider's refresh-token
exchange (only consulted when the code reaches the refresh call). -/
def getValidAccessToken (decrypt encrypt : String → String)
    (tokens : List MailToken) (accounts : List MailAccount)
    (accountId : String) (now : Int)
    (exchangeResult : Except String TokenData) : TokenOutcome :=
  match tokens.find? (fun t => t.accountId == accountId) with
  | none =>
    { result := Except.error "No tokens found for account - please reconnect",
      refreshCalled := false, tokens := tokens, accounts := accounts }
  | some tr =>
    if tr.expiresAt - now > bufferTime then
      let d := decrypt tr.accessToken
      if jsIsBlank d then
        { result := Except.error "Stored access token is empty - please reconnect",
          refreshCalled := false, tokens := tokens, accounts := accounts }
      else
        { result := Except.ok d, refreshCalled := false,
          tokens := tokens, accounts := accounts }
    else
      match refreshAccessToken exchangeResult with
      | Except.ok newTokens =>
        { result := Except.ok newTokens.access_token, refreshCalled := true,
          tokens := storeTokens encrypt tokens accountId newTokens now,
          accounts := accounts }
      | Except.error msg =>
        { result := Except.error msg, refreshCalled := true, tokens := tokens,
          accounts :=
            updateAccount accounts accountId
              (fun a =>
                { a with status := AccountStatus.NEEDS_REAUTH,
                         lastError := some ("Token refresh failed: " ++ msg) }) }
/-- The provider's subscription resource as returned by the create / renew
calls (`response.data`), restricted to the fields the services read. -/
structure ProviderSub where
  id : String
  expirationDateTime : Int
deriving DecidableEq

/-- `crypto.randomBytes(32).toString("hex")` (`generateClientState`,
`src/src/services/webhook.service.js` lines 21-23): hex-encode the random
bytes the kernel hands the service. -/
def hexDigit (n : Nat) : Char :=
  if n < 10 then Char.ofNat (48 + n) else Char.ofNat (87 + n)

/-- Two-character hex rendering of one byte. -/
def byteToHex (b : Fin 256) : List Char :=
  [hexDigit (b.val / 16), hexDigit (b.val % 16)]

/-- `generateClientState`, parametrised by the random bytes drawn. -/
def generateClientState (randomBytes : List (Fin 256)) : String :=
  String.mk ((randomBytes.map byteToHex).flatten)

/-- Prisma `webhookSubscription.upsert({where: {accountId}, ...})` where the
`create` and `update` branches write the same field values (as in
`createSubscription`): replace the row keyed by `accountId`, or insert. -/
def upsertSubscription (subs : List WebhookSubscription) (accountId : String)
    (row : WebhookSubscription) : List WebhookSubscription :=
  if subs.any (fun s => s.accountId == accountId) then
    subs.map (fun s => if s.accountId == accountId then row else s)
  else subs ++ [row]

/-- `createSubscription` (`src/src/services/webhook.service.js` lines
41-101): generate a fresh `clientState`, call the provider, and upsert the
local row with the provider's new subscription id and the locally generated
`clientState`.  `createResp` injects the combined outcome of the token fetch
and the provider create call (both failures are rethrown). -/
def createSubscription (subs : List WebhookSubscription) (accountId : String)
    (freshClientState : String)
    (createResp : Except ErrorResponse ProviderSub) :
    Except ErrorResponse (List WebhookSubscription × ProviderSub) :=
  match createResp with
  | Except.error e => Except.error e
  | Except.ok s =>
    Except.ok
      (upsertSubscription subs accountId
        { accountId := accountId, subscriptionId := s.id,
          clientState := freshClientState, expiresAt := s.expirationDateTime },
       s)

/-- `renewSubscription` (`src/src/services/webhook.service.js` lines
108-163): no local row delegates to create; otherwise patch the provider
subscription and store the new expiry; when the provider answers 404, 400 or
`InvalidSubscription`, delete the local row and recreate; any other error is
rethrown.  `patchResp` injects the combined outcome of the token fetch and
the provider patch call. -/
def renewSubscription (subs : List WebhookSubscription) (accountId : String)
    (patchResp : Except ErrorResponse ProviderSub) (freshClientState : String)
    (createResp : Except ErrorResponse ProviderSub) :
    Except ErrorResponse (List WebhookSubscription × ProviderSub) :=
  match subs.find? (fun s => s.accountId == accountId) with
  | none => createSubscription subs accountId freshClientState createResp
  | some _ =>
    match patchResp with
    | Except.ok s =>
      Except.ok
        (subs.map (fun x =>
          if x.accountId == accountId then { x with expiresAt := s.expirationDateTime }
          else x),
         s)
    | Except.error e =>
      if e.status == some 404 || e.status == some 400 ||
          e.errorCode == some "InvalidSubscription" then
        createSubscription (subs.filter (fun x => !(x.accountId == accountId)))
          accountId freshClientState createResp
      else Except.error e

/-- `deleteSubscription` (`src/src/services/webhook.service.js` lines
169-210).  The inner `try` swallows any token-fetch / provider-delete error
(`apiResult` is only logged); the local row is then always deleted; the
outer `try` swallows a failing local delete (`dbDeleteFails`), so the
function returns a state in every case and never throws. -/
def deleteSubscription (subs : List WebhookSubscription) (accountId : String)
    (apiResult : Except String Unit) (dbDeleteFails : Bool) :
    List WebhookSubscription :=
  match subs.find? (fun s => s.accountId == accountId) with
  | none => subs
  | some _ =>
    let _ignoredApiOutcome := apiResult
    if dbDeleteFails then subs
    else subs.filter (fun x => !(x.accountId == accountId))

/-- The `where` clause of `getFailedMessages`
(`src/src/services/forwarder.service.js` lines 302-313): status FAILED,
attempts below `config.worker.maxRetries`, and the stored error must not
contain the fragment `"status":403`. -/
def failedRetryPred (maxRetries : Nat) (r : MailMessageLog) : Bool :=
  r.forwardStatus == ForwardStatus.FAILED && r.attempts < maxRetries &&
    !(strContains (r.error.getD "") "\"status\":403")

/-- `orderBy: { lastAttemptAt: "asc" }` with SQL NULLs-first semantics. -/
def lastAttemptLe (a b : MailMessageLog) : Bool :=
  match a.lastAttemptAt, b.lastAttemptAt with
  | none, _ => true
  | some _, none => false
  | some x, some y => x ≤ y

/-- Insert into a sorted list (helper for the `orderBy` model below). -/
def insertLe (le : MailMessageLog → MailMessageLog → Bool)
    (x : MailMessageLog) : List MailMessageLog → List MailMessageLog
  | [] => [x]
  | y :: ys => if le x y then x :: y :: ys else y :: insertLe le x ys

/-- Stable insertion sort, the model of the SQL `ORDER BY`. -/
def sortLe (le : MailMessageLog → MailMessageLog → Bool) :
    List MailMessageLog → List MailMessageLog
  | [] => []
  | x :: xs => insertLe le x (sortLe le xs)

/-- `getFailedMessages` (`src/src/services/forwarder.service.js` lines
302-313): the filtered rows ordered by oldest attempt, capped at `limit`
(default 50). -/
def getFailedMessages (maxRetries limit : Nat) (logs : List MailMessageLog) :
    List MailMessageLog :=
  (sortLe lastAttemptLe (logs.filter (failedRetryPred maxRetries))).take limit

/-- Result of `retryMessage`: the two tables afterwards plus the boolean the
function returns. -/
structure RetryOutcome where
  logs : List MailMessageLog
  accounts : List MailAccount
  success : Bool
deriving DecidableEq

/-- `retryMessage` (`src/src/services/sync.service.js` lines 319-371).
`fetchAndForward` injects the combined outcome of `graphService.getMessage`
and `forwarderService.forwardGraphMessage`; on success the row flips to
FORWARDED with the error cleared and the account counters move; on failure
the row's attempts grow by one and the status becomes FAILED at the ceiling
and PENDING below it. -/
def retryMessage (maxRetries : Nat) (logs : List MailMessageLog)
    (accounts : List MailAccount) (log : MailMessageLog)
    (fetchAndForward : Except ErrorResponse Unit) (now : Int) : RetryOutcome :=
  match fetchAndForward with
  | Except.ok _ =>
    { logs :=
        logs.map (fun r =>
          if r.id == log.id then
            { r with forwardStatus := ForwardStatus.FORWARDED,
                     lastAttemptAt := some now, error := none }
          else r),
      accounts :=
        updateAccount accounts log.accountId
          (fun a =>
            { a with forwardedCount := a.forwardedCount + 1,
                     failedForwardCount := a.failedForwardCount - 1 }),
      success := true }
  | Except.error e =>
    { logs :=
        logs.map (fun r =>
          if r.id == log.id then
            { r with attempts := log.attempts + 1, lastAttemptAt := some now,
                     error := some e.errorMessage,
                     forwardStatus :=
                       if log.attempts + 1 ≥ maxRetries then ForwardStatus.FAILED
                       else ForwardStatus.PENDING }
          else r),
      accounts := accounts, success := false }

/-- The acceptance predicate exactly as claim C3 words it (refinement-side
definition, to compare against `isSteamMessage`): the sender address is on
the sender allow-list, or the sender domain is on the domain allow-list, or
— when no allow-list is configured at all — the subject contains one of the
configured keywords. -/
def specFilterAccepts (cfg : FilterConfig) (m : MsgPreview) : Bool :=
  let fromAddress := lowerStr m.fromAddress
  let domain := (splitOnChar '@' fromAddress).getD 1 ""
  cfg.allowedSenders.contains fromAddress ||
    cfg.allowedDomains.contains domain ||
    ((cfg.allowedSenders.isEmpty && cfg.allowedDomains.isEmpty) &&
      cfg.subjectKeywords.any (fun k => strContains (lowerStr m.subject) k))

/-- A `clientState` produced by `generateClientState` is never the empty
string (it is the hex encoding of the 32 bytes drawn). -/
theorem generateClientState_ne_empty (bs : List (Fin 256)) (h : bs ≠ []) :
    generateClientState bs ≠ "" := by
  intro heq
  apply h
  have hdata : ((bs.map byteToHex).flatten) = [] := congrArg String.data heq
  cases bs with
  | nil => rfl
  | cons b t => simp [byteToHex] at hdata

/-- C10: `deleteSubscription` never propagates an error to its caller — it
returns a table state in every case (second conjunct: the table is either
untouched or has exactly the account's row removed) and its result does not
depend on the provider-side delete outcome (first conjunct); in particular,
when a local row exists and the local delete goes through, the row is
removed even though the provider call failed (third conjunct). -/
theorem deleteSubscription_total_and_cleans_locally :
    (∀ (subs : List WebhookSubscription) (accountId : String)
       (e : String) (dbF : Bool),
       deleteSubscription subs accountId (Except.error e) dbF =
         deleteSubscription subs accountId (Except.ok ()) dbF)
  ∧ (∀ (subs : List WebhookSubscription) (accountId : String)
       (apiResult : Except String Unit) (dbF : Bool),
       deleteSubscription subs accountId apiResult dbF = subs ∨
       deleteSubscription subs accountId apiResult dbF =
         subs.filter (fun x => !(x.accountId == accountId)))
  ∧ (∀ (subs : List WebhookSubscription) (accountId : String)
       (e : String) (s : WebhookSubscription),
       subs.find? (fun x => x.accountId == accountId) = some s →
       deleteSubscription subs accountId (Except.error e) false =
         subs.filter (fun x => !(x.accountId == accountId))) := by
  refine ⟨?_, ?_, ?_⟩
  · intro subs accountId e dbF
    cases h : subs.find? (fun x => x.accountId == accountId) <;>
      simp [deleteSubscription, h]
  · intro subs accountId apiResult dbF
    cases h : subs.find? (fun x => x.accountId == accountId) with
    | none => exact Or.inl (by simp [deleteSubscription, h])
    | some s =>
      cases dbF with
      | true => exact Or.inl (by simp [deleteSubscription, h])
      | false => exact Or.inr (by simp [deleteSubscription, h])
  · intro subs accountId e s h
    simp [deleteSubscription, h]

/-- C10 witness: with one stored subscription for `acc1`, a failing
provider delete still removes the local row. -/
theorem deleteSubscription_total_and_cleans_locally_witness :
    deleteSubscription
      [{ accountId := "acc1", subscriptionId := "s1", clientState := "cs1",
         expiresAt := 0 }]
      "acc1" (Except.error "provider down") false = [] :=
  (deleteSubscription_total_and_cleans_locally.2.2
      [{ accountId := "acc1", subscriptionId := "s1", clientState := "cs1",
         expiresAt := 0 }]
      "acc1" "provider down"
      { accountId := "acc1", subscriptionId := "s1", clientState := "cs1",
        expiresAt := 0 }
      (by decide)).trans (by decide)

/-- C8: `validateNotification` returns no subscription for an unknown
`subscriptionId`, for an inbound `clientState` different from the stored
one, and for an empty or missing inbound `clientState` (stored client
states are `generateClientState` outputs, hence non-empty — the `hgen`
hypothesis); and it returns a stored subscription exactly when the
`subscriptionId` is known and the inbound `clientState` equals the stored
one. -/
theorem validateNotification_only_exact_match
    (subs : List WebhookSubscription) (cs : Option String) (sid : String)
    (hgen : ∀ s ∈ subs, s.clientState ≠ "") :
    (subs.find? (fun s => s.subscriptionId == sid) = none →
       validateNotification subs cs sid = none)
  ∧ (∀ s, subs.find? (fun s => s.subscriptionId == sid) = some s →
       cs ≠ some s.clientState → validateNotification subs cs sid = none)
  ∧ ((cs = none ∨ cs = some "") → validateNotification subs cs sid = none)
  ∧ (∀ s, validateNotification subs cs sid = some s ↔
       (subs.find? (fun s => s.subscriptionId == sid) = some s ∧
        cs = some s.clientState)) := by
  refine ⟨?_, ?_, ?_, ?_⟩
  · intro h
    simp [validateNotification, h]
  · intro s h hne
    have hc : (cs == some s.clientState) = false := by
      simpa [beq_iff_eq] using hne
    simp [validateNotification, h, hc]
  · intro hcs
    cases hfind : subs.find? (fun s => s.subscriptionId == sid) with
    | none => simp [validateNotification, hfind]
    | some s =>
      have hne : s.clientState ≠ "" :=
        hgen s (List.mem_of_find?_eq_some hfind)
      have hc : (cs == some s.clientState) = false := by
        rcases hcs with h | h <;> subst h <;> simp [beq_iff_eq]
        exact fun hh => hne hh.symm
      simp [validateNotification, hfind, hc]
  · intro s
    constructor
    · intro h
      cases hfind : subs.find? (fun s => s.subscriptionId == sid) with
      | none => simp [validateNotification, hfind] at h
      | some s₀ =>
        by_cases hc : cs = some s₀.clientState
        · have hb : (cs == some s₀.clientState) = true := by
            simpa [beq_iff_eq] using hc
          simp [validateNotification, hfind, hb] at h
          constructor
          · exact congrArg some h
          · rw [hc, h]
        · have hb : (cs == some s₀.clientState) = false := by
            simpa [beq_iff_eq] using hc
          simp [validateNotification, hfind, hb] at h
    · rintro ⟨hfind, hcs⟩
      have hb : (cs == some s.clientState) = true := by
        simpa [beq_iff_eq] using hcs
      simp [validateNotification, hfind, hb]

/-- C8 witness: with one stored subscription (`sub1`, clientState
`aabb`), the unknown-id, wrong-state and missing-state scenarios all
return `none`, and the exact match returns the stored row. -/
theorem validateNotification_only_exact_match_witness :
    validateNotification
      [{ accountId := "acc1", subscriptionId := "sub1", clientState := "aabb",
         expiresAt := 0 }] (some "aabb") "nope" = none ∧
    validateNotification
      [{ accountId := "acc1", subscriptionId := "sub1", clientState := "aabb",
         expiresAt := 0 }] (some "wrong") "sub1" = none ∧
    validateNotification
      [{ accountId := "acc1", subscriptionId := "sub1", clientState := "aabb",
         expiresAt := 0 }] none "sub1" = none ∧
    validateNotification
      [{ accountId := "acc1", subscriptionId := "sub1", clientState := "aabb",
         expiresAt := 0 }] (some "aabb") "sub1" =
      some { accountId := "acc1", subscriptionId := "sub1",
             clientState := "aabb", expiresAt := 0 } := by
  refine ⟨?_, ?_, ?_, ?_⟩
  · exact (validateNotification_only_exact_match _ (some "aabb") "nope"
      (by decide)).1 (by decide)
  · exact (validateNotification_only_exact_match _ (some "wrong") "sub1"
      (by decide)).2.1
      { accountId := "acc1", subscriptionId := "sub1", clientState := "aabb",
        expiresAt := 0 } (by decide) (by decide)
  · exact (validateNotification_only_exact_match _ none "sub1"
      (by decide)).2.2.1 (Or.inl rfl)
  · exact ((validateNotification_only_exact_match _ (some "aabb") "sub1"
      (by decide)).2.2.2 _).mpr ⟨by decide, rfl⟩

/-- C5 counterexample: a Credential whose `expiresAt` is 10 minutes in the
future but whose stored access token decrypts to the empty string makes
`getValidAccessToken` throw the corruption error instead of returning the
decrypted token (no refresh call is made either way), so the claim's
unconditional "returns the decrypted access token" is false. -/
theorem getValidAccessToken_blank_token_cex :
    ((600000 : Int) - 0 > bufferTime) ∧
    (getValidAccessToken (fun s => s) (fun s => s)
        [{ accountId := "acc1", accessToken := "", refreshToken := "r",
           tokenType := "Bearer", scope := none, expiresAt := 600000 }]
        [] "acc1" 0
        (Except.ok { access_token := "fresh", refresh_token := none,
                     expires_in := 3600, token_type := none,
                     scope := none })).result =
      Except.error "Stored access token is empty - please reconnect" ∧
    (getValidAccessToken (fun s => s) (fun s => s)
        [{ accountId := "acc1", accessToken := "", refreshToken := "r",
           tokenType := "Bearer", scope := none, expiresAt := 600000 }]
        [] "acc1" 0
        (Except.ok { access_token := "fresh", refresh_token := none,
                     expires_in := 3600, token_type := none,
                     scope := none })).refreshCalled = false := by
  decide

/-- C5 (amended): when the stored Credential's `expiresAt` is more than the
5-minute buffer in the future, `getValidAccessToken` performs no refresh
call and returns the decrypted access token provided the decrypted value is
not blank (a blank decrypted token raises the corruption error instead,
still without a refresh call); whenever `expiresAt` is within the buffer,
it always performs a refresh call. -/
theorem getValidAccessToken_buffer_behaviour
    (decrypt encrypt : String → String) (tokens : List MailToken)
    (accounts : List MailAccount) (accountId : String) (now : Int)
    (exch : Except String TokenData) (tr : MailToken)
    (hfind : tokens.find? (fun t => t.accountId == accountId) = some tr) :
    (tr.expiresAt - now > bufferTime →
       (getValidAccessToken decrypt encrypt tokens accounts accountId now
           exch).refreshCalled = false ∧
       (jsIsBlank (decrypt tr.accessToken) = false →
         (getValidAccessToken decrypt encrypt tokens accounts accountId now
             exch).result = Except.ok (decrypt tr.accessToken)) ∧
       (jsIsBlank (decrypt tr.accessToken) = true →
         (getValidAccessToken decrypt encrypt tokens accounts accountId now
             exch).result =
           Except.error "Stored access token is empty - please reconnect"))
  ∧ (¬(tr.expiresAt - now > bufferTime) →
       (getValidAccessToken decrypt encrypt tokens accounts accountId now
           exch).refreshCalled = true) := by
  constructor
  · intro hgt
    refine ⟨?_, ?_, ?_⟩
    · by_cases hb : jsIsBlank (decrypt tr.accessToken) <;>
        simp [getValidAccessToken, hfind, hgt, hb]
    · intro hb
      simp [getValidAccessToken, hfind, hgt, hb]
    · intro hb
      simp [getValidAccessToken, hfind, hgt, hb]
  · intro hle
    cases hx : refreshAccessToken exch <;>
      simp [getValidAccessToken, hfind, hle, hx]

/-- C5 witness: a non-blank token 10 minutes from expiry is returned
without refresh; the same Credential 4 minutes from expiry triggers the
refresh call. -/
theorem getValidAccessToken_buffer_behaviour_witness :
    (getValidAccessToken (fun s => s) (fun s => s)
        [{ accountId := "acc1", accessToken := "tok", refreshToken := "r",
           tokenType := "Bearer", scope := none, expiresAt := 600000 }]
        [] "acc1" 0 (Except.error "down")).refreshCalled = false ∧
    (getValidAccessToken (fun s => s) (fun s => s)
        [{ accountId := "acc1", accessToken := "tok", refreshToken := "r",
           tokenType := "Bearer", scope := none, expiresAt := 600000 }]
        [] "acc1" 0 (Except.error "down")).result = Except.ok "tok" ∧
    (getValidAccessToken (fun s => s) (fun s => s)
        [{ accountId := "acc1", accessToken := "tok", refreshToken := "r",
           tokenType := "Bearer", scope := none, expiresAt := 240000 }]
        [] "acc1" 0 (Except.error "down")).refreshCalled = true := by
  have h10 := getValidAccessToken_buffer_behaviour (fun s => s) (fun s => s)
    [{ accountId := "acc1", accessToken := "tok", refreshToken := "r",
       tokenType := "Bearer", scope := none, expiresAt := 600000 }]
    [] "acc1" 0 (Except.error "down")
    { accountId := "acc1", accessToken := "tok", refreshToken := "r",
      tokenType := "Bearer", scope := none, expiresAt := 600000 }
    (by decide)
  have h4 := getValidAccessToken_buffer_behaviour (fun s => s) (fun s => s)
    [{ accountId := "acc1", accessToken := "tok", refreshToken := "r",
       tokenType := "Bearer", scope := none, expiresAt := 240000 }]
    [] "acc1" 0 (Except.error "down")
    { accountId := "acc1", accessToken := "tok", refreshToken := "r",
      tokenType := "Bearer", scope := none, expiresAt := 240000 }
    (by decide)
  refine ⟨?_, ?_, ?_⟩
  · exact (h10.1 (by decide)).1
  · exact (h10.1 (by decide)).2.1 (by decide)
  · exact h4.2 (by decide)

/-- C6: when the refresh-token exchange fails inside `getValidAccessToken`,
the owning Account is flipped to NEEDS_REAUTH with the failure reason in
`lastError`, and the (wrapped) error is propagated to the caller as the
function's result — not swallowed into a success and not retried (the
single exchange outcome decides the run). -/
theorem getValidAccessToken_refresh_failure
    (decrypt encrypt : String → String) (tokens : List MailToken)
    (accounts : List MailAccount) (accountId : String) (now : Int)
    (desc : String) (tr : MailToken)
    (hfind : tokens.find? (fun t => t.accountId == accountId) = some tr)
    (hle : ¬(tr.expiresAt - now > bufferTime)) :
    (getValidAccessToken decrypt encrypt tokens accounts accountId now
        (Except.error desc)).result =
      Except.error ("Token refresh failed: " ++ desc) ∧
    (getValidAccessToken decrypt encrypt tokens accounts accountId now
        (Except.error desc)).accounts =
      updateAccount accounts accountId
        (fun a =>
          { a with status := AccountStatus.NEEDS_REAUTH,
                   lastError := some ("Token refresh failed: " ++
                     ("Token refresh failed: " ++ desc)) }) ∧
    (getValidAccessToken decrypt encrypt tokens accounts accountId now
        (Except.error desc)).refreshCalled = true := by
  refine ⟨?_, ?_, ?_⟩ <;>
    simp [getValidAccessToken, refreshAccessToken, hfind, hle]

/-- C6 witness: concrete refresh failure flips the account to NEEDS_REAUTH
and the caller sees the error. -/
theorem getValidAccessToken_refresh_failure_witness :
    (getValidAccessToken (fun s => s) (fun s => s)
        [{ accountId := "acc1", accessToken := "tok", refreshToken := "r",
           tokenType := "Bearer", scope := none, expiresAt := 240000 }]
        [{ id := "acc1", email := "a@b.c", status := AccountStatus.CONNECTED,
           isEnabled := true, forwardedCount := 0, failedForwardCount := 0,
           lastSyncAt := none, lastMessageAt := none, lastError := none,
           errorCount := 0 }]
        "acc1" 0 (Except.error "invalid_grant")).result =
      Except.error "Token refresh failed: invalid_grant" ∧
    (getValidAccessToken (fun s => s) (fun s => s)
        [{ accountId := "acc1", accessToken := "tok", refreshToken := "r",
           tokenType := "Bearer", scope := none, expiresAt := 240000 }]
        [{ id := "acc1", email := "a@b.c", status := AccountStatus.CONNECTED,
           isEnabled := true, forwardedCount := 0, failedForwardCount := 0,
           lastSyncAt := none, lastMessageAt := none, lastError := none,
           errorCount := 0 }]
        "acc1" 0 (Except.error "invalid_grant")).accounts =
      [{ id := "acc1", email := "a@b.c", status := AccountStatus.NEEDS_REAUTH,
         isEnabled := true, forwardedCount := 0, failedForwardCount := 0,
         lastSyncAt := none, lastMessageAt := none,
         lastError := some
           "Token refresh failed: Token refresh failed: invalid_grant",
         errorCount := 0 }] := by
  have h := getValidAccessToken_refresh_failure (fun s => s) (fun s => s)
    [{ accountId := "acc1", accessToken := "tok", refreshToken := "r",
       tokenType := "Bearer", scope := none, expiresAt := 240000 }]
    [{ id := "acc1", email := "a@b.c", status := AccountStatus.CONNECTED,
       isEnabled := true, forwardedCount := 0, failedForwardCount := 0,
       lastSyncAt := none, lastMessageAt := none, lastError := none,
       errorCount := 0 }]
    "acc1" 0 "invalid_grant"
    { accountId := "acc1", accessToken := "tok", refreshToken := "r",
      tokenType := "Bearer", scope := none, expiresAt := 240000 }
    (by decide) (by decide)
  exact ⟨h.1, h.2.1.trans (by decide)⟩

/-- Upserting into a table that has no row for `accountId` appends. -/
theorem upsertSubscription_append (subs : List WebhookSubscription)
    (accountId : String) (row : WebhookSubscription)
    (hno : ∀ x ∈ subs, (x.accountId == accountId) = false) :
    upsertSubscription subs accountId row = subs ++ [row] := by
  unfold upsertSubscription
  have hany : subs.any (fun s => s.accountId == accountId) = false := by
    rw [List.any_eq_false]
    intro x hx
    simp [hno x hx]
  simp [hany]

/-- C7 counterexample: a Subscription whose `expiresAt` (0) lies in the past
of any positive clock is renewed while the provider happens to accept the
patch; `renewSubscription` then keeps the old `subscriptionId` and the old
`clientState` (only the expiry moves), so "a new subscriptionId and a new
clientState whenever expiresAt is in the past" is false — the code never
consults `expiresAt` and recreates only on a provider invalid/not-found
signal. -/
theorem renewSubscription_expired_reuse_cex :
    renewSubscription
      [{ accountId := "acc1", subscriptionId := "old-sub",
         clientState := "old-cs", expiresAt := 0 }]
      "acc1"
      (Except.ok { id := "old-sub", expirationDateTime := 99999 })
      "fresh-cs"
      (Except.ok { id := "new-id", expirationDateTime := 99999 }) =
      Except.ok
        ([{ accountId := "acc1", subscriptionId := "old-sub",
            clientState := "old-cs", expiresAt := 99999 }],
         { id := "old-sub", expirationDateTime := 99999 }) := by
  decide

/-- C7 (amended): whenever the provider reports the subscription
invalid/not-found on renewal (status 404 or 400, or error code
`InvalidSubscription`) — or no local row exists — a successful recreation
leaves a Subscription table in which every row for the account carries the
provider's newly created `subscriptionId` and the freshly generated
`clientState`; the expired/rejected identifiers are gone. -/
theorem renewSubscription_recreates_on_invalid
    (subs : List WebhookSubscription) (accountId : String)
    (e : ErrorResponse) (fresh : String) (s' : ProviderSub)
    (hcode : e.status = some 404 ∨ e.status = some 400 ∨
             e.errorCode = some "InvalidSubscription") :
    ∃ subs', renewSubscription subs accountId (Except.error e) fresh
        (Except.ok s') = Except.ok (subs', s') ∧
      ∀ r ∈ subs', r.accountId = accountId →
        (r.subscriptionId = s'.id ∧ r.clientState = fresh) := by
  cases hfind : subs.find? (fun s => s.accountId == accountId) with
  | none =>
    have hno : ∀ x ∈ subs, (x.accountId == accountId) = false := by
      intro x hx
      have := List.find?_eq_none.mp hfind x hx
      simpa using this
    refine ⟨subs ++
      [{ accountId := accountId, subscriptionId := s'.id,
         clientState := fresh, expiresAt := s'.expirationDateTime }], ?_, ?_⟩
    · simp [renewSubscription, hfind, createSubscription,
        upsertSubscription_append subs accountId _ hno]
    · intro r hr hacc
      rcases List.mem_append.mp hr with h | h
      · exact absurd (by simpa using hacc) (by simpa using hno r h)
      · rcases List.mem_singleton.mp h with rfl
        exact ⟨rfl, rfl⟩
  | some s₀ =>
    have hcond : (e.status == some 404 || e.status == some 400 ||
        e.errorCode == some "InvalidSubscription") = true := by
      rcases hcode with h | h | h <;> simp [h]
    have hno : ∀ x ∈ subs.filter (fun x => !(x.accountId == accountId)),
        (x.accountId == accountId) = false := by
      intro x hx
      have := List.of_mem_filter hx
      simpa using this
    refine ⟨subs.filter (fun x => !(x.accountId == accountId)) ++
      [{ accountId := accountId, subscriptionId := s'.id,
         clientState := fresh, expiresAt := s'.expirationDateTime }], ?_, ?_⟩
    · simp [renewSubscription, hfind, hcond, createSubscription,
        upsertSubscription_append _ accountId _ hno]
    · intro r hr hacc
      rcases List.mem_append.mp hr with h | h
      · exact absurd (by simpa using hacc) (by simpa using hno r h)
      · rcases List.mem_singleton.mp h with rfl
        exact ⟨rfl, rfl⟩

/-- C7 witness: a 404 on renewal replaces the old identifiers with the
provider's new id and the freshly drawn clientState. -/
theorem renewSubscription_recreates_on_invalid_witness :
    renewSubscription
      [{ accountId := "acc1", subscriptionId := "old-sub",
         clientState := "old-cs", expiresAt := 0 }]
      "acc1"
      (Except.error { status := some 404, errorCode := none,
                      errorMessage := "Not Found" })
      "fresh-cs"
      (Except.ok { id := "new-id", expirationDateTime := 99999 }) =
      Except.ok
        ([{ accountId := "acc1", subscriptionId := "new-id",
            clientState := "fresh-cs", expiresAt := 99999 }],
         { id := "new-id", expirationDateTime := 99999 }) := by
  obtain ⟨subs', heq, hrows⟩ := renewSubscription_recreates_on_invalid
    [{ accountId := "acc1", subscriptionId := "old-sub",
       clientState := "old-cs", expiresAt := 0 }]
    "acc1"
    { status := some 404, errorCode := none, errorMessage := "Not Found" }
    "fresh-cs"
    { id := "new-id", expirationDateTime := 99999 }
    (Or.inl rfl)
  decide

/-- C1: delivery work is deduplicated on the pair (accountId,
externalMessageId): a notification that resolves to a pair whose job id is
already queued or in flight leaves the queue unchanged (first conjunct),
and recording a delivery outcome for a pair that already has a
`mail_message_log` row updates that row in place — every row is mapped, the
keyed one through the update, and no row is inserted, so the table length
is unchanged (second conjunct, the unique compound key
`accountId_graphMessageId`). -/
theorem dedup_by_account_and_message_id :
    (∀ (subs : List WebhookSubscription) (accounts : List MailAccount)
       (queue : List BullJob) (n : GraphNotification) (a email m : String),
       resolveNotification subs accounts n = some (a, email, m) →
       (∃ j ∈ queue, j.jobId = jobIdOf a m) →
       enqueueNotification subs accounts queue n = queue)
  ∧ (∀ (logs : List MailMessageLog) (a m : String) (create : MailMessageLog)
       (update : MailMessageLog → MailMessageLog),
       (∃ r ∈ logs, logKeyMatches a m r = true) →
       upsertMessageLog logs a m create update =
         logs.map (fun r => if logKeyMatches a m r then update r else r) ∧
       (upsertMessageLog logs a m create update).length = logs.length) := by
  constructor
  · rintro subs accounts queue n a email m hres ⟨j, hj, hjid⟩
    have hany : queue.any (fun x => x.jobId == jobIdOf a m) = true :=
      List.any_eq_true.mpr ⟨j, hj, by simp [hjid]⟩
    simp [enqueueNotification, hres, bullAdd, hany]
  · rintro logs a m create update ⟨r, hr, hkey⟩
    have hany : logs.any (logKeyMatches a m) = true :=
      List.any_eq_true.mpr ⟨r, hr, hkey⟩
    constructor
    · simp [upsertMessageLog, hany]
    · simp [upsertMessageLog, hany]

/-- C1 witness: a duplicate notification for the already-queued pair
(acc1, m1) adds no job, and a second FAILED outcome for the pair updates
the single existing row instead of inserting. -/
theorem dedup_by_account_and_message_id_witness :
    enqueueNotification
      [{ accountId := "acc1", subscriptionId := "sub1", clientState := "cs",
         expiresAt := 0 }]
      [{ id := "acc1", email := "a@b.c", status := AccountStatus.CONNECTED,
         isEnabled := true, forwardedCount := 0, failedForwardCount := 0,
         lastSyncAt := none, lastMessageAt := none, lastError := none,
         errorCount := 0 }]
      [{ jobId := "acc1:m1", accountId := "acc1", accountEmail := "a@b.c",
         messageId := "m1" }]
      { subscriptionId := "sub1", clientState := some "cs", resource := none,
        resourceDataId := some "m1" } =
      [{ jobId := "acc1:m1", accountId := "acc1", accountEmail := "a@b.c",
         messageId := "m1" }] ∧
    upsertMessageLog
      [{ id := "L1", accountId := "acc1", graphMessageId := "m1",
         forwardStatus := ForwardStatus.FAILED, attempts := 1,
         lastAttemptAt := none, error := none, forwardedTo := none }]
      "acc1" "m1"
      { id := "L2", accountId := "acc1", graphMessageId := "m1",
        forwardStatus := ForwardStatus.FAILED, attempts := 1,
        lastAttemptAt := none, error := none, forwardedTo := none }
      (fun r => { r with attempts := r.attempts + 1 }) =
      [{ id := "L1", accountId := "acc1", graphMessageId := "m1",
         forwardStatus := ForwardStatus.FAILED, attempts := 2,
         lastAttemptAt := none, error := none, forwardedTo := none }] := by
  constructor
  · exact dedup_by_account_and_message_id.1
      [{ accountId := "acc1", subscriptionId := "sub1", clientState := "cs",
         expiresAt := 0 }]
      [{ id := "acc1", email := "a@b.c", status := AccountStatus.CONNECTED,
         isEnabled := true, forwardedCount := 0, failedForwardCount := 0,
         lastSyncAt := none, lastMessageAt := none, lastError := none,
         errorCount := 0 }]
      [{ jobId := "acc1:m1", accountId := "acc1", accountEmail := "a@b.c",
         messageId := "m1" }]
      { subscriptionId := "sub1", clientState := some "cs", resource := none,
        resourceDataId := some "m1" }
      "acc1" "a@b.c" "m1" (by decide) (by decide)
  · exact (dedup_by_account_and_message_id.2
      [{ id := "L1", accountId := "acc1", graphMessageId := "m1",
         forwardStatus := ForwardStatus.FAILED, attempts := 1,
         lastAttemptAt := none, error := none, forwardedTo := none }]
      "acc1" "m1"
      { id := "L2", accountId := "acc1", graphMessageId := "m1",
        forwardStatus := ForwardStatus.FAILED, attempts := 1,
        lastAttemptAt := none, error := none, forwardedTo := none }
      (fun r => { r with attempts := r.attempts + 1 })
      (by decide)).1.trans (by decide)

/-- C2 counterexample: a successful forward (matching sender, forward call
ok) resolves with FORWARDED and bumps the account counters, yet the
message-log table stays empty — no DeliveryRecord with
`forwardStatus=FORWARDED` is upserted (the worker's success path updates
counters only). -/
theorem forward_success_no_record_cex :
    (processForwardJob true
        { allowedSenders := ["billing@partner.example"], allowedDomains := [],
          subjectKeywords := [] }
        { jobId := "acc1:m1", accountId := "acc1", accountEmail := "a@b.c",
          messageId := "m1" }
        (Except.ok (some
          { fromAddress := "billing@partner.example",
            subject := "Weekly Report", receivedDateTime := some 111 }))
        (Except.ok ()) 222
        { accounts :=
            [{ id := "acc1", email := "a@b.c",
               status := AccountStatus.CONNECTED, isEnabled := true,
               forwardedCount := 0, failedForwardCount := 0, lastSyncAt := none,
               lastMessageAt := none, lastError := none, errorCount := 0 }],
          logs := [] }).result = JobResult.FORWARDED ∧
    (processForwardJob true
        { allowedSenders := ["billing@partner.example"], allowedDomains := [],
          subjectKeywords := [] }
        { jobId := "acc1:m1", accountId := "acc1", accountEmail := "a@b.c",
          messageId := "m1" }
        (Except.ok (some
          { fromAddress := "billing@partner.example",
            subject := "Weekly Report", receivedDateTime := some 111 }))
        (Except.ok ()) 222
        { accounts :=
            [{ id := "acc1", email := "a@b.c",
               status := AccountStatus.CONNECTED, isEnabled := true,
               forwardedCount := 0, failedForwardCount := 0, lastSyncAt := none,
               lastMessageAt := none, lastError := none, errorCount := 0 }],
          logs := [] }).state.logs = [] := by
  decide

/-- C2 (amended): whenever the forward call succeeds, the worker increments
the owning Account's forwardedCount and sets lastSyncAt to the processing
time and lastMessageAt to the message's receipt time (falling back to the
processing time), resolves FORWARDED with no operator notifications — and
writes no DeliveryRecord: the message-log table is left exactly as it
was. -/
theorem forward_success_updates_counters_only
    (steamOnly : Bool) (cfg : FilterConfig) (job : BullJob) (p : MsgPreview)
    (now : Int) (st : WorkerState)
    (hpass : isSteamMessage cfg p = true) :
    (processForwardJob steamOnly cfg job (Except.ok (some p)) (Except.ok ())
        now st).result = JobResult.FORWARDED ∧
    (processForwardJob steamOnly cfg job (Except.ok (some p)) (Except.ok ())
        now st).state.logs = st.logs ∧
    (processForwardJob steamOnly cfg job (Except.ok (some p)) (Except.ok ())
        now st).state.accounts =
      updateAccount st.accounts job.accountId
        (fun a =>
          { a with forwardedCount := a.forwardedCount + 1,
                   lastSyncAt := some now,
                   lastMessageAt := some (p.receivedDateTime.getD now) }) ∧
    (processForwardJob steamOnly cfg job (Except.ok (some p)) (Except.ok ())
        now st).reauthNotices = 0 ∧
    (processForwardJob steamOnly cfg job (Except.ok (some p)) (Except.ok ())
        now st).devErrorNotices = 0 := by
  have hcond : (steamOnly && !isSteamMessage cfg p) = false := by
    simp [hpass]
  refine ⟨?_, ?_, ?_, ?_, ?_⟩ <;> simp [processForwardJob, hcond]

/-- C2 witness: scenario B — domain allow-list `partner.example`, message
from `billing@partner.example`, forward succeeds: counters move, log table
untouched. -/
theorem forward_success_updates_counters_only_witness :
    (processForwardJob true
        { allowedSenders := [], allowedDomains := ["partner.example"],
          subjectKeywords := ["invoice"] }
        { jobId := "acc1:m2", accountId := "acc1", accountEmail := "a@b.c",
          messageId := "m2" }
        (Except.ok (some
          { fromAddress := "billing@partner.example",
            subject := "Weekly Report", receivedDateTime := some 50 }))
        (Except.ok ()) 60
        { accounts :=
            [{ id := "acc1", email := "a@b.c",
               status := AccountStatus.CONNECTED, isEnabled := true,
               forwardedCount := 3, failedForwardCount := 1, lastSyncAt := none,
               lastMessageAt := none, lastError := none, errorCount := 0 }],
          logs := [] }).state.accounts =
      [{ id := "acc1", email := "a@b.c", status := AccountStatus.CONNECTED,
         isEnabled := true, forwardedCount := 4, failedForwardCount := 1,
         lastSyncAt := some 60, lastMessageAt := some 50, lastError := none,
         errorCount := 0 }] ∧
    (processForwardJob true
        { allowedSenders := [], allowedDomains := ["partner.example"],
          subjectKeywords := ["invoice"] }
        { jobId := "acc1:m2", accountId := "acc1", accountEmail := "a@b.c",
          messageId := "m2" }
        (Except.ok (some
          { fromAddress := "billing@partner.example",
            subject := "Weekly Report", receivedDateTime := some 50 }))
        (Except.ok ()) 60
        { accounts :=
            [{ id := "acc1", email := "a@b.c",
               status := AccountStatus.CONNECTED, isEnabled := true,
               forwardedCount := 3, failedForwardCount := 1, lastSyncAt := none,
               lastMessageAt := none, lastError := none, errorCount := 0 }],
          logs := [] }).state.logs = [] := by
  have h := forward_success_updates_counters_only true
    { allowedSenders := [], allowedDomains := ["partner.example"],
      subjectKeywords := ["invoice"] }
    { jobId := "acc1:m2", accountId := "acc1", accountEmail := "a@b.c",
      messageId := "m2" }
    { fromAddress := "billing@partner.example", subject := "Weekly Report",
      receivedDateTime := some 50 }
    60
    { accounts :=
        [{ id := "acc1", email := "a@b.c",
           status := AccountStatus.CONNECTED, isEnabled := true,
           forwardedCount := 3, failedForwardCount := 1, lastSyncAt := none,
           lastMessageAt := none, lastError := none, errorCount := 0 }],
      logs := [] }
    (by decide)
  exact ⟨h.2.2.1.trans (by decide), h.2.1⟩

/-- Boolean normal form of `isSteamMessage`: sender allow-list hit, or
non-empty-domain allow-list hit, or — whenever the keyword list is
configured — a subject keyword hit. -/
theorem isSteamMessage_eq (cfg : FilterConfig) (m : MsgPreview) :
    isSteamMessage cfg m =
      (cfg.allowedSenders.contains (lowerStr m.fromAddress) ||
       ((((splitOnChar '@' (lowerStr m.fromAddress)).getD 1 "") != "") &&
        cfg.allowedDomains.contains
          ((splitOnChar '@' (lowerStr m.fromAddress)).getD 1 "")) ||
       (!cfg.subjectKeywords.isEmpty &&
        cfg.subjectKeywords.any
          (fun k => strContains (lowerStr m.subject) k))) := by
  unfold isSteamMessage
  cases h1 : cfg.allowedSenders.contains (lowerStr m.fromAddress) <;>
    cases h2 : ((((splitOnChar '@' (lowerStr m.fromAddress)).getD 1 "") != "") &&
      cfg.allowedDomains.contains
        ((splitOnChar '@' (lowerStr m.fromAddress)).getD 1 "")) <;>
    cases h3 : cfg.subjectKeywords.isEmpty <;>
    simp_all

/-- C3 counterexample: with a sender allow-list configured
(`allowed@x.com`), an empty domain list and keyword list `invoice`, a
message from an address not on the allow-list whose subject contains
`invoice` is accepted by the code (the keyword fallback runs whenever
keywords are configured) but rejected by the claim's predicate (which
reserves the keyword fallback for the no-allow-list case). -/
theorem steam_filter_keyword_fallback_cex :
    isSteamMessage
      { allowedSenders := ["allowed@x.com"], allowedDomains := [],
        subjectKeywords := ["invoice"] }
      { fromAddress := "other@y.com", subject := "Invoice 123",
        receivedDateTime := none } = true ∧
    specFilterAccepts
      { allowedSenders := ["allowed@x.com"], allowedDomains := [],
        subjectKeywords := ["invoice"] }
      { fromAddress := "other@y.com", subject := "Invoice 123",
        receivedDateTime := none } = false := by
  decide

/-- C3 (amended): the filter accepts exactly when the (lower-cased) sender
address is on the sender allow-list, or the sender's non-empty domain is on
the domain allow-list, or — whenever a keyword list is configured, allow-list
or not — the subject contains one of the keywords; and with the Steam-only
flag on, every non-matching message terminates the job as SKIPPED with the
whole state (message-log table and accounts) untouched and no notifications
sent. -/
theorem steam_filter_accepts_and_skips
    (cfg : FilterConfig) (m : MsgPreview) :
    (isSteamMessage cfg m = true ↔
      (cfg.allowedSenders.contains (lowerStr m.fromAddress) = true ∨
       (((splitOnChar '@' (lowerStr m.fromAddress)).getD 1 "") ≠ "" ∧
        cfg.allowedDomains.contains
          ((splitOnChar '@' (lowerStr m.fromAddress)).getD 1 "") = true) ∨
       (cfg.subjectKeywords ≠ [] ∧
        ∃ k ∈ cfg.subjectKeywords,
          strContains (lowerStr m.subject) k = true)))
  ∧ (∀ (job : BullJob) (fres : Except ErrorResponse Unit) (now : Int)
       (st : WorkerState),
       isSteamMessage cfg m = false →
       processForwardJob true cfg job (Except.ok (some m)) fres now st =
         { state := st, result := JobResult.SKIPPED, reauthNotices := 0,
           devErrorNotices := 0 }) := by
  constructor
  · rw [isSteamMessage_eq]
    simp only [Bool.or_eq_true, Bool.and_eq_true, Bool.not_eq_true',
      List.any_eq_true, bne_iff_ne, List.isEmpty_eq_false, ne_eq, or_assoc]
  · intro job fres now st hfail
    simp [processForwardJob, hfail]

/-- C3 witness: scenario A — keyword list `invoice`, no allow-list, message
from `billing@partner.example` with subject "Weekly Report" fails the
filter and the job skips with no state change; and the acceptance
characterisation instantiated at a matching keyword message. -/
theorem steam_filter_accepts_and_skips_witness :
    processForwardJob true
      { allowedSenders := [], allowedDomains := [],
        subjectKeywords := ["invoice"] }
      { jobId := "acc1:m3", accountId := "acc1", accountEmail := "a@b.c",
        messageId := "m3" }
      (Except.ok (some
        { fromAddress := "billing@partner.example",
          subject := "Weekly Report", receivedDateTime := none }))
      (Except.ok ()) 7
      { accounts := [], logs := [] } =
      { state := { accounts := [], logs := [] },
        result := JobResult.SKIPPED, reauthNotices := 0,
        devErrorNotices := 0 } := by
  exact (steam_filter_accepts_and_skips
    { allowedSenders := [], allowedDomains := [],
      subjectKeywords := ["invoice"] }
    { fromAddress := "billing@partner.example", subject := "Weekly Report",
      receivedDateTime := none }).2
    { jobId := "acc1:m3", accountId := "acc1", accountEmail := "a@b.c",
      messageId := "m3" }
    (Except.ok ()) 7 { accounts := [], logs := [] } (by decide)

/-- After an upsert keyed on `(a, m)` a row with that key satisfying the
written fields is present, whether the branch taken was create or update. -/
theorem upsertMessageLog_keyed_row (logs : List MailMessageLog) (a m : String)
    (create : MailMessageLog) (update : MailMessageLog → MailMessageLog)
    (P : MailMessageLog → Prop)
    (hcreate : logKeyMatches a m create = true ∧ P create)
    (hupdate : ∀ r, logKeyMatches a m r = true →
      logKeyMatches a m (update r) = true ∧ P (update r)) :
    ∃ r ∈ upsertMessageLog logs a m create update,
      logKeyMatches a m r = true ∧ P r := by
  by_cases hany : logs.any (logKeyMatches a m) = true
  · obtain ⟨r₀, hr₀, hk⟩ := List.any_eq_true.mp hany
    refine ⟨update r₀, ?_, hupdate r₀ hk⟩
    have : upsertMessageLog logs a m create update =
        logs.map (fun r => if logKeyMatches a m r then update r else r) := by
      simp [upsertMessageLog, hany]
    rw [this]
    exact List.mem_map.mpr ⟨r₀, hr₀, by simp [hk]⟩
  · have hfalse : logs.any (logKeyMatches a m) = false :=
      Bool.not_eq_true _ ▸ eq_false_of_ne_true hany
    have : upsertMessageLog logs a m create update = logs ++ [create] := by
      simp [upsertMessageLog, hfalse]
    rw [this]
    exact ⟨create, List.mem_append_right _ (List.mem_singleton_self _),
      hcreate.1, hcreate.2⟩

/-- C4: when the forward call fails with an auth/suspension/quota-class
error, the worker upserts a FAILED `mail_message_log` row for the pair
carrying the structured error detail with the attempt time, increments the
Account's failed counter, flips the account status to ERROR, and fires the
re-auth/quota operator notification exactly once for the attempt (and no
developer-only notification). -/
theorem forward_auth_error_effects
    (steamOnly : Bool) (cfg : FilterConfig) (job : BullJob) (p : MsgPreview)
    (e : ErrorResponse) (now : Int) (st : WorkerState)
    (hpass : isSteamMessage cfg p = true)
    (hauth : isAuthOrSuspendError e = true) :
    (processForwardJob steamOnly cfg job (Except.ok (some p))
        (Except.error e) now st).result = JobResult.FAILED e ∧
    (processForwardJob steamOnly cfg job (Except.ok (some p))
        (Except.error e) now st).reauthNotices = 1 ∧
    (processForwardJob steamOnly cfg job (Except.ok (some p))
        (Except.error e) now st).devErrorNotices = 0 ∧
    (∃ r ∈ (processForwardJob steamOnly cfg job (Except.ok (some p))
        (Except.error e) now st).state.logs,
      logKeyMatches job.accountId job.messageId r = true ∧
      r.forwardStatus = ForwardStatus.FAILED ∧
      r.error = some (errorDetailsJson (buildErrorDetails e job.accountId
        job.accountEmail job.messageId)) ∧
      r.lastAttemptAt = some now) ∧
    (processForwardJob steamOnly cfg job (Except.ok (some p))
        (Except.error e) now st).state.accounts =
      updateAccount
        (updateAccount st.accounts job.accountId
          (fun a =>
            { a with failedForwardCount := a.failedForwardCount + 1 }))
        job.accountId (fun a => { a with status := AccountStatus.ERROR }) := by
  have hcond : (steamOnly && !isSteamMessage cfg p) = false := by
    simp [hpass]
  have hred : processForwardJob steamOnly cfg job (Except.ok (some p))
      (Except.error e) now st = failForwardJob job e now st := by
    simp [processForwardJob, hcond]
  rw [hred]
  refine ⟨?_, ?_, ?_, ?_, ?_⟩
  · simp [failForwardJob, hauth]
  · simp [failForwardJob, hauth]
  · simp [failForwardJob, hauth]
  · have hlogs : (failForwardJob job e now st).state.logs =
        upsertMessageLog st.logs job.accountId job.messageId
          { id := jobIdOf job.accountId job.messageId,
            accountId := job.accountId, graphMessageId := job.messageId,
            forwardStatus := ForwardStatus.FAILED, attempts := 1,
            lastAttemptAt := some now,
            error := some (errorDetailsJson (buildErrorDetails e
              job.accountId job.accountEmail job.messageId)),
            forwardedTo := none }
          (fun r =>
            { r with forwardStatus := ForwardStatus.FAILED,
                     error := some (errorDetailsJson (buildErrorDetails e
                       job.accountId job.accountEmail job.messageId)),
                     attempts := r.attempts + 1,
                     lastAttemptAt := some now }) := by
      simp [failForwardJob, hauth]
    rw [hlogs]
    exact upsertMessageLog_keyed_row _ _ _ _ _ _
      ⟨by simp [logKeyMatches], by simp⟩
      (fun r hk => ⟨by simpa [logKeyMatches] using hk, by simp⟩)
  · simp [failForwardJob, hauth]

/-- C4 witness: scenario C — the forward call returns 403 with code
`ErrorExceededMessageLimit`; the account flips to ERROR with the failed
counter bumped, the FAILED row carries the structured detail, and exactly
one re-auth notification fires. -/
theorem forward_auth_error_effects_witness :
    (processForwardJob true
        { allowedSenders := ["billing@partner.example"], allowedDomains := [],
          subjectKeywords := [] }
        { jobId := "acc1:m9", accountId := "acc1", accountEmail := "a@b.c",
          messageId := "m9" }
        (Except.ok (some
          { fromAddress := "billing@partner.example", subject := "S",
            receivedDateTime := none }))
        (Except.error
          { status := some 403,
            errorCode := some "ErrorExceededMessageLimit",
            errorMessage := "quota" }) 77
        { accounts :=
            [{ id := "acc1", email := "a@b.c",
               status := AccountStatus.CONNECTED, isEnabled := true,
               forwardedCount := 0, failedForwardCount := 0,
               lastSyncAt := none, lastMessageAt := none, lastError := none,
               errorCount := 0 }],
          logs := [] }).reauthNotices = 1 ∧
    (processForwardJob true
        { allowedSenders := ["billing@partner.example"], allowedDomains := [],
          subjectKeywords := [] }
        { jobId := "acc1:m9", accountId := "acc1", accountEmail := "a@b.c",
          messageId := "m9" }
        (Except.ok (some
          { fromAddress := "billing@partner.example", subject := "S",
            receivedDateTime := none }))
        (Except.error
          { status := some 403,
            errorCode := some "ErrorExceededMessageLimit",
            errorMessage := "quota" }) 77
        { accounts :=
            [{ id := "acc1", email := "a@b.c",
               status := AccountStatus.CONNECTED, isEnabled := true,
               forwardedCount := 0, failedForwardCount := 0,
               lastSyncAt := none, lastMessageAt := none, lastError := none,
               errorCount := 0 }],
          logs := [] }).state.accounts =
      [{ id := "acc1", email := "a@b.c", status := AccountStatus.ERROR,
         isEnabled := true, forwardedCount := 0, failedForwardCount := 1,
         lastSyncAt := none, lastMessageAt := none, lastError := none,
         errorCount := 0 }] := by
  have h := forward_auth_error_effects true
    { allowedSenders := ["billing@partner.example"], allowedDomains := [],
      subjectKeywords := [] }
    { jobId := "acc1:m9", accountId := "acc1", accountEmail := "a@b.c",
      messageId := "m9" }
    { fromAddress := "billing@partner.example", subject := "S",
      receivedDateTime := none }
    { status := some 403, errorCode := some "ErrorExceededMessageLimit",
      errorMessage := "quota" }
    77
    { accounts :=
        [{ id := "acc1", email := "a@b.c", status := AccountStatus.CONNECTED,
           isEnabled := true, forwardedCount := 0, failedForwardCount := 0,
           lastSyncAt := none, lastMessageAt := none, lastError := none,
           errorCount := 0 }],
      logs := [] }
    (by decide) (by decide)
  exact ⟨h.2.1, h.2.2.2.2.trans (by decide)⟩

/-- Membership through sorted insertion. -/
theorem mem_insertLe (le : MailMessageLog → MailMessageLog → Bool)
    (x a : MailMessageLog) (l : List MailMessageLog) :
    a ∈ insertLe le x l ↔ a = x ∨ a ∈ l := by
  induction l with
  | nil => simp [insertLe]
  | cons y ys ih =>
    cases h : le x y <;> simp [insertLe, h, ih]
    tauto

/-- Sorting permutes the rows: membership is unchanged. -/
theorem mem_sortLe (le : MailMessageLog → MailMessageLog → Bool)
    (a : MailMessageLog) (l : List MailMessageLog) :
    a ∈ sortLe le l ↔ a ∈ l := by
  induction l with
  | nil => simp [sortLe]
  | cons y ys ih => simp [sortLe, mem_insertLe, ih]

/-- Sorted insertion grows the list by one. -/
theorem length_insertLe (le : MailMessageLog → MailMessageLog → Bool)
    (x : MailMessageLog) (l : List MailMessageLog) :
    (insertLe le x l).length = l.length + 1 := by
  induction l with
  | nil => simp [insertLe]
  | cons y ys ih => cases h : le x y <;> simp [insertLe, h, ih]

/-- Sorting preserves the number of rows. -/
theorem length_sortLe (le : MailMessageLog → MailMessageLog → Bool)
    (l : List MailMessageLog) :
    (sortLe le l).length = l.length := by
  induction l with
  | nil => rfl
  | cons y ys ih => simp [sortLe, length_insertLe, ih]

/-- C9 counterexample: a FAILED record below the retry ceiling whose stored
error carries `"status":403` is not selected by the retry sweep — the query
excludes 403-class failures, so "selects exactly the previously FAILED
records below the ceiling" is false. -/
theorem retry_skips_403_record_cex :
    getFailedMessages 3 50
      [{ id := "L403", accountId := "acc1", graphMessageId := "m1",
         forwardStatus := ForwardStatus.FAILED, attempts := 1,
         lastAttemptAt := some 0,
         error := some (errorDetailsJson
           { accountId := "acc1", accountEmail := "a@b.c", messageId := "m1",
             status := some 403,
             errorCode := some "ErrorExceededMessageLimit",
             errorMessage := "quota" }),
         forwardedTo := none }] = [] ∧
    (1 : Nat) < 3 := by
  constructor
  · decide
  · decide

/-- C9 (amended): the retry sweep selects, up to the batch limit and in
oldest-attempt order, exactly the FAILED records below the attempt ceiling
whose stored error does not carry `"status":403` (those stay frozen for the
operator); records at or above the ceiling are never selected; and each
retried record is updated on every pass — to FORWARDED with a cleared error
on success, otherwise attempts grow by one and the status is FAILED at the
ceiling (frozen) and PENDING below it. -/
theorem retry_selection_and_update
    (maxRetries limit : Nat) (logs : List MailMessageLog)
    (r : MailMessageLog) :
    (r ∈ getFailedMessages maxRetries limit logs →
       r ∈ logs ∧ r.forwardStatus = ForwardStatus.FAILED ∧
       r.attempts < maxRetries ∧
       strContains (r.error.getD "") "\"status\":403" = false)
  ∧ (maxRetries ≤ r.attempts → r ∉ getFailedMessages maxRetries limit logs)
  ∧ ((logs.filter (failedRetryPred maxRetries)).length ≤ limit →
       (r ∈ getFailedMessages maxRetries limit logs ↔
         r ∈ logs ∧ failedRetryPred maxRetries r = true))
  ∧ (∀ (accounts : List MailAccount) (log : MailMessageLog) (now : Int),
       (retryMessage maxRetries logs accounts log (Except.ok ()) now).logs =
         logs.map (fun x =>
           if x.id == log.id then
             { x with forwardStatus := ForwardStatus.FORWARDED,
                      lastAttemptAt := some now, error := none }
           else x))
  ∧ (∀ (accounts : List MailAccount) (log : MailMessageLog)
       (e : ErrorResponse) (now : Int),
       (retryMessage maxRetries logs accounts log (Except.error e) now).logs =
         logs.map (fun x =>
           if x.id == log.id then
             { x with attempts := log.attempts + 1, lastAttemptAt := some now,
                      error := some e.errorMessage,
                      forwardStatus :=
                        if log.attempts + 1 ≥ maxRetries then
                          ForwardStatus.FAILED
                        else ForwardStatus.PENDING }
           else x)) := by
  have hsel : r ∈ getFailedMessages maxRetries limit logs →
      r ∈ logs ∧ r.forwardStatus = ForwardStatus.FAILED ∧
      r.attempts < maxRetries ∧
      strContains (r.error.getD "") "\"status\":403" = false := by
    intro h
    have h1 : r ∈ sortLe lastAttemptLe
        (logs.filter (failedRetryPred maxRetries)) :=
      List.mem_of_mem_take h
    have h2 := (mem_sortLe _ _ _).mp h1
    obtain ⟨hmem, hp⟩ := List.mem_filter.mp h2
    refine ⟨hmem, ?_⟩
    simpa [failedRetryPred, Bool.and_eq_true, beq_iff_eq,
      decide_eq_true_eq, Bool.not_eq_true', and_assoc] using hp
  refine ⟨hsel, ?_, ?_, ?_, ?_⟩
  · intro hle hmem
    exact absurd (hsel hmem).2.2.1 (Nat.not_lt.mpr hle)
  · intro hlen
    have hlen' : (sortLe lastAttemptLe
        (logs.filter (failedRetryPred maxRetries))).length ≤ limit := by
      rw [length_sortLe]; exact hlen
    unfold getFailedMessages
    rw [List.take_of_length_le hlen', mem_sortLe, List.mem_filter]
  · intro accounts log now
    simp [retryMessage]
  · intro accounts log e now
    simp [retryMessage]

/-- C9 witness: with the ceiling at 3, a FAILED record with one attempt and
a plain error is selected, while a record with three attempts is not. -/
theorem retry_selection_and_update_witness :
    ({ id := "L1", accountId := "acc1", graphMessageId := "m1",
       forwardStatus := ForwardStatus.FAILED, attempts := 1,
       lastAttemptAt := some 5, error := some "boom",
       forwardedTo := none } : MailMessageLog) ∈
      getFailedMessages 3 50
        [{ id := "L1", accountId := "acc1", graphMessageId := "m1",
           forwardStatus := ForwardStatus.FAILED, attempts := 1,
           lastAttemptAt := some 5, error := some "boom",
           forwardedTo := none },
         { id := "L2", accountId := "acc1", graphMessageId := "m2",
           forwardStatus := ForwardStatus.FAILED, attempts := 3,
           lastAttemptAt := some 6, error := some "boom",
           forwardedTo := none }] ∧
    ({ id := "L2", accountId := "acc1", graphMessageId := "m2",
       forwardStatus := ForwardStatus.FAILED, attempts := 3,
       lastAttemptAt := some 6, error := some "boom",
       forwardedTo := none } : MailMessageLog) ∉
      getFailedMessages 3 50
        [{ id := "L1", accountId := "acc1", graphMessageId := "m1",
           forwardStatus := ForwardStatus.FAILED, attempts := 1,
           lastAttemptAt := some 5, error := some "boom",
           forwardedTo := none },
         { id := "L2", accountId := "acc1", graphMessageId := "m2",
           forwardStatus := ForwardStatus.FAILED, attempts := 3,
           lastAttemptAt := some 6, error := some "boom",
           forwardedTo := none }] := by
  constructor
  · exact ((retry_selection_and_update 3 50
      [{ id := "L1", accountId := "acc1", graphMessageId := "m1",
         forwardStatus := ForwardStatus.FAILED, attempts := 1,
         lastAttemptAt := some 5, error := some "boom",
         forwardedTo := none },
       { id := "L2", accountId := "acc1", graphMessageId := "m2",
         forwardStatus := ForwardStatus.FAILED, attempts := 3,
         lastAttemptAt := some 6, error := some "boom",
         forwardedTo := none }]
      { id := "L1", accountId := "acc1", graphMessageId := "m1",
        forwardStatus := ForwardStatus.FAILED, attempts := 1,
        lastAttemptAt := some 5, error := some "boom",
        forwardedTo := none }).2.2.1 (by decide)).mpr (by decide)
  · exact (retry_selection_and_update 3 50
      [{ id := "L1", accountId := "acc1", graphMessageId := "m1",
         forwardStatus := ForwardStatus.FAILED, attempts := 1,
         lastAttemptAt := some 5, error := some "boom",
         forwardedTo := none },
       { id := "L2", accountId := "acc1", graphMessageId := "m2",
         forwardStatus := ForwardStatus.FAILED, attempts := 3,
         lastAttemptAt := some 6, error := some "boom",
         forwardedTo := none }]
      { id := "L2", accountId := "acc1", graphMessageId := "m2",
        forwardStatus := ForwardStatus.FAILED, attempts := 3,
        lastAttemptAt := some 6, error := some "boom",
        forwardedTo := none }).2.1 (by decide)
